import Mathlib

/-!
Verification development for a client-side orbital-image selector script
(`src/scripts/index.js`, 10×10 variant).  The script parses the page URL's
query string (`?mode_m_n`), derives a selection state, sets the displayed
image path, marks the active mode indicator, sets the two mode-switch
links, and appends a 10×10 grid of selection links to the page.

The embedding below translates the script and the JavaScript primitives it
relies on (`String.prototype.split`, `parseInt`, strict number equality)
into executable Lean definitions, and proves properties of the resulting
pipeline.
-/

namespace ModalLaser

/-! ## JavaScript string / number primitives -/

/-- Whitespace characters skipped by JavaScript `parseInt`
(the ones representable in our inputs). -/
def isJsSpace (c : Char) : Bool :=
  c == ' ' || c == '\t' || c == '\n' || c == '\r'

/-- JavaScript `String.prototype.split` with a one-character separator, on
char lists: `"".split(sep)` is `[""]`, separators at the ends produce empty
fields. -/
def splitOnChar (sep : Char) : List Char → List (List Char)
  | [] => [[]]
  | c :: rest =>
    match splitOnChar sep rest with
    | [] => [[]]
    | first :: others =>
      if c == sep then [] :: first :: others
      else (c :: first) :: others

/-- JavaScript `String.prototype.split` with a one-character separator. -/
def jsSplit (sep : Char) (s : String) : List String :=
  (splitOnChar sep s.toList).map String.mk

/-- JavaScript `String.prototype.substring(k)`: drop the first `k`
characters. -/
def strDrop (k : Nat) (s : String) : String :=
  String.mk (s.toList.drop k)

/-- Numeric value of a decimal digit character. -/
def digitVal (c : Char) : Nat := c.toNat - 48

/-- Value of a list of decimal digit characters, most significant first. -/
def decValue (ds : List Char) : Nat :=
  ds.foldl (fun a c => a * 10 + digitVal c) 0

/-- Hexadecimal digit recognizer (for `parseInt`'s `0x` form). -/
def isHexDigitChar (c : Char) : Bool :=
  ('0' ≤ c && c ≤ '9') || ('a' ≤ c && c ≤ 'f') || ('A' ≤ c && c ≤ 'F')

/-- Numeric value of a hexadecimal digit character. -/
def hexDigitVal (c : Char) : Nat :=
  if '0' ≤ c ∧ c ≤ '9' then c.toNat - 48
  else if 'a' ≤ c ∧ c ≤ 'f' then c.toNat - 87
  else c.toNat - 55

/-- Value of a list of hexadecimal digit characters, most significant first. -/
def hexValue (ds : List Char) : Nat :=
  ds.foldl (fun a c => a * 16 + hexDigitVal c) 0

/-- JavaScript `parseInt(s)` (no radix argument) on a char list: skip
whitespace, read an optional sign, then the longest digit run — in base 16
after a `0x`/`0X` marker, in base 10 otherwise.  `none` models `NaN`
(no digits found). -/
def jsParseIntChars (cs : List Char) : Option Int :=
  let trimmed := cs.dropWhile isJsSpace
  let signAndBody : Int × List Char :=
    match trimmed with
    | '-' :: rest => (-1, rest)
    | '+' :: rest => (1, rest)
    | _ => (1, trimmed)
  let sign := signAndBody.1
  let body := signAndBody.2
  let hexForm : Bool :=
    match body with
    | '0' :: x :: _ => x == 'x' || x == 'X'
    | _ => false
  if hexForm then
    let ds := (body.drop 2).takeWhile isHexDigitChar
    if ds.isEmpty then none else some (sign * (hexValue ds : Int))
  else
    let ds := body.takeWhile Char.isDigit
    if ds.isEmpty then none else some (sign * (decValue ds : Int))

/-- JavaScript `parseInt(s)` (no radix argument); `none` models `NaN`. -/
def jsParseInt (s : String) : Option Int :=
  jsParseIntChars s.toList

/-! ## Selection state and URL parsing (lines 11–31 of the script) -/

/-- The module-level selection state: `mode`, `m`, `n`.  Indices are JS
numbers; `parseInt` produces integers here, so we model them as `Int`. -/
structure SelState where
  mode : String
  m : Int
  n : Int
deriving DecidableEq, Repr

/-- The defaults the script initializes with: `m = 0`, `n = 0`,
`mode = 'HG'`. -/
def defaultState : SelState := { mode := "HG", m := 0, n := 0 }

/-- Line 17 of the script: `urlInfo.substring(1).split('_')`. -/
def queryTokens (urlInfo : String) : List String :=
  jsSplit '_' (strDrop 1 urlInfo)

/-- Lines 18–19 of the script: `parseInt(params[i])`.  A missing element is
`undefined`, and `parseInt(undefined)` is `NaN` (`none`). -/
def indexToken (urlInfo : String) (i : Nat) : Option Int :=
  match (queryTokens urlInfo).get? i with
  | none => none
  | some t => jsParseInt t

/-- The script's range test `0 <= v && v < 10`; every comparison against
`NaN` is false. -/
def inRange10 : Option Int → Bool
  | none => false
  | some v => decide (0 ≤ v) && decide (v < 10)

/-- Lines 16–31 of the script: the parse/validate step.  Note that the
source's guard compares the *current* `mode` variable — which at that point
still holds its default value, written here as `defaultState.mode` — with
`'HG'`/`'LG'`, not the freshly read `modeTemp`; the embedding reproduces
that comparison as written.  In the `then` branch the two `getD 0` simply
extract the integers whose presence the guard has established. -/
def parseSelection (urlInfo : String) : SelState :=
  if 1 < urlInfo.length then
    if inRange10 (indexToken urlInfo 1) && inRange10 (indexToken urlInfo 2)
        && (defaultState.mode == "HG" || defaultState.mode == "LG") then
      { mode := (queryTokens urlInfo).headD "",
        m := (indexToken urlInfo 1).getD 0,
        n := (indexToken urlInfo 2).getD 0 }
    else defaultState
  else defaultState

/-- Line 34: ``img/${mode}/${m}_${n}.png``. -/
def imgPath (st : SelState) : String :=
  "img/" ++ st.mode ++ "/" ++ Int.repr st.m ++ "_" ++ Int.repr st.n ++ ".png"

/-- Line 41: ``HGSelect.href = `./?HG_${m}_${n}` ``. -/
def hgHref (st : SelState) : String :=
  "./?HG_" ++ Int.repr st.m ++ "_" ++ Int.repr st.n

/-- Line 42: ``LGSelect.href = `./?LG_${m}_${n}` ``. -/
def lgHref (st : SelState) : String :=
  "./?LG_" ++ Int.repr st.m ++ "_" ++ Int.repr st.n

/-! ## Mode indicator marking (line 38) -/

/-- The ids of the two mode-indicator elements as the page loads.  (The
other ids the page provides, `image` and `select-table`, do not end in
`-select`, so `getElementById(mode + "-select")` can only find these two.) -/
structure ModeIndicators where
  hgId : String
  lgId : String
deriving DecidableEq, Repr

/-- The indicator ids before the script runs. -/
def initialIndicators : ModeIndicators := { hgId := "HG-select", lgId := "LG-select" }

/-- Line 38: ``document.getElementById(`${mode}-select`).id = 'selected-mode'``.
If no element has id `mode + "-select"`, `getElementById` is `null` and the
assignment throws a `TypeError`, modelled as `Except.error`. -/
def markSelectedMode (mode : String) (ind : ModeIndicators) : Except String ModeIndicators :=
  if mode ++ "-select" == ind.hgId then
    Except.ok { hgId := "selected-mode", lgId := ind.lgId }
  else if mode ++ "-select" == ind.lgId then
    Except.ok { hgId := ind.hgId, lgId := "selected-mode" }
  else Except.error "TypeError: cannot set id of null"

/-! ## Grid generation (lines 45–62) -/

/-- One grid cell as emitted by the inner loop: its row/column counters,
link target, visible label, and whether it carries the
`selected-orbital` id. -/
structure GridCell where
  row : Nat
  col : Nat
  href : String
  label : String
  active : Bool
deriving DecidableEq, Repr

/-- Line 52: ``./?${mode}_${mTable}_${nTable}``. -/
def cellHref (mode : String) (r c : Nat) : String :=
  "./?" ++ mode ++ "_" ++ Nat.repr r ++ "_" ++ Nat.repr c

/-- The cell the inner loop body emits for counters `r`, `c` under
selection state `mode`, `m`, `n`; the active flag is line 53's
`mTable === m && nTable === n`. -/
def mkCell (mode : String) (m n : Int) (r c : Nat) : GridCell :=
  { row := r, col := c,
    href := cellHref mode r c,
    label := Nat.repr r ++ Nat.repr c,
    active := ((r : Int) == m) && ((c : Int) == n) }

/-- One row `<div>`: its `hsl(...)` background arguments (line 46:
``hsl(${mTable * 50}, 100%, 80%)``) and its ten cells. -/
structure GridRow where
  hueArg : Nat
  satPercent : Nat
  lightPercent : Nat
  cells : List GridCell
deriving DecidableEq, Repr

/-- The row emitted for outer counter `r`. -/
def gridRow (st : SelState) (r : Nat) : GridRow :=
  { hueArg := r * 50, satPercent := 100, lightPercent := 80,
    cells := (List.range 10).map (fun c => mkCell st.mode st.m st.n r c) }

/-- The ten rows emitted by the outer loop. -/
def gridRows (st : SelState) : List GridRow :=
  (List.range 10).map (gridRow st)

/-- All cells of one generation pass, in emission (row-major) order. -/
def gridCells (st : SelState) : List GridCell :=
  ((gridRows st).map GridRow.cells).flatten

/-- The row-major list of (row, column) counter pairs of the two loops. -/
def gridPairs : List (Nat × Nat) :=
  ((List.range 10).map (fun r => (List.range 10).map (fun c => (r, c)))).flatten

/-- CSS semantics of an `hsl()` hue argument: hue angles are interpreted
modulo 360 degrees. -/
def cssHueOfArg (h : Nat) : Nat := h % 360

/-- The whole grid-generation step.  The loop does
`selectTable.innerHTML += tableRow`, so a pass *appends* its cells to
whatever the table already contains. -/
def runGridGeneration (st : SelState) (table : List GridCell) : List GridCell :=
  table ++ gridCells st

/-! ## The whole script pass -/

/-- Everything the script writes into the page on one load. -/
structure PageResult where
  imagePath : String
  indicators : ModeIndicators
  hgLink : String
  lgLink : String
  table : List GridCell
deriving DecidableEq, Repr

/-- The single synchronous pass of the script on query string `urlInfo`:
parse (lines 16–31), set the image path (34–35), mark the selected mode
(38, the one step that can throw), set the mode links (41–42), generate
the grid into the initially empty table (45–62). -/
def runScript (urlInfo : String) : Except String PageResult :=
  let st := parseSelection urlInfo
  let path := imgPath st
  match markSelectedMode st.mode initialIndicators with
  | Except.error e => Except.error e
  | Except.ok ind =>
    Except.ok { imagePath := path, indicators := ind,
                hgLink := hgHref st, lgLink := lgHref st,
                table := runGridGeneration st [] }

/-- The image path the pass sets, when it completes. -/
def resultImagePath : Except String PageResult → Option String
  | Except.ok r => some r.imagePath
  | Except.error _ => none

/-- The exception the pass aborts with, when it throws. -/
def resultError : Except String PageResult → Option String
  | Except.ok _ => none
  | Except.error e => some e

/-- A second definition following the spec's words, for comparison with the
code's `parseInt`-based parsing: a token is *numeric* when it is a decimal
integer numeral (an optional minus sign followed by one or more digits). -/
def specDecimalIntToken (s : String) : Bool :=
  match s.toList with
  | [] => false
  | '-' :: ds => !ds.isEmpty && ds.all Char.isDigit
  | ds => ds.all Char.isDigit

/-! ## Helper lemmas -/

/-- When the script's range test accepts an optional integer, the extracted
value lies in `[0, 10)`. -/
theorem inRange10_getD {t : Option Int} (h : inRange10 t = true) :
    0 ≤ t.getD 0 ∧ t.getD 0 < 10 := by
  cases t with
  | none => simp [inRange10] at h
  | some v =>
    simp only [inRange10, Bool.and_eq_true, decide_eq_true_eq] at h
    simpa using h

/-- The script's range test rejects `NaN` and out-of-range integers. -/
theorem inRange10_eq_false {t : Option Int}
    (h : t = none ∨ ∃ v, t = some v ∧ (v < 0 ∨ 10 ≤ v)) :
    inRange10 t = false := by
  rcases h with h | ⟨v, hv, hr⟩
  · rw [h]; rfl
  · rcases hr with hr | hr
    · rw [hv]
      have h0 : decide ((0 : Int) ≤ v) = false := decide_eq_false (by omega)
      simp [inRange10, h0]
    · rw [hv]
      have h1 : decide (v < (10 : Int)) = false := decide_eq_false (by omega)
      simp [inRange10, h1]

/-- The cell list of one generation pass is the row-major counter list
mapped through the loop body. -/
theorem gridCells_as_pairs (st : SelState) :
    gridCells st = gridPairs.map (fun p => mkCell st.mode st.m st.n p.1 p.2) := rfl

/-- Every counter pair of the grid prints as two single-digit labels. -/
theorem gridPairs_repr_len : ∀ p ∈ gridPairs,
    (Nat.repr p.1).length = 1 ∧ (Nat.repr p.2).length = 1 := by decide

/-- Whatever the query string, the parsed indices always lie in `[0, 10)`:
the guard enforces the range and the fallback is `0`. -/
theorem parse_in_range (urlInfo : String) :
    0 ≤ (parseSelection urlInfo).m ∧ (parseSelection urlInfo).m < 10 ∧
    0 ≤ (parseSelection urlInfo).n ∧ (parseSelection urlInfo).n < 10 := by
  unfold parseSelection
  split
  · split
    · next hcond =>
      simp only [Bool.and_eq_true] at hcond
      obtain ⟨⟨hm, hn⟩, -⟩ := hcond
      have h1 := inRange10_getD hm
      have h2 := inRange10_getD hn
      exact ⟨h1.1, h1.2, h2.1, h2.2⟩
    · decide
  · decide

/-- Round trip for the mode-switch links: stripping the `./` and re-parsing
a link target recovers the link's mode together with the state's indices. -/
theorem mode_links_roundtrip (st : SelState)
    (hm0 : 0 ≤ st.m) (hm1 : st.m < 10) (hn0 : 0 ≤ st.n) (hn1 : st.n < 10) :
    parseSelection (strDrop 2 (hgHref st)) = { mode := "HG", m := st.m, n := st.n } ∧
    parseSelection (strDrop 2 (lgHref st)) = { mode := "LG", m := st.m, n := st.n } := by
  obtain ⟨mo, m, n⟩ := st
  dsimp only [hgHref, lgHref] at hm0 hm1 hn0 hn1 ⊢
  interval_cases m <;> interval_cases n <;> exact ⟨by decide, by decide⟩

/-- Active cells of one pass, projected to their counters: the grid's
active flags depend only on the parsed indices, not on the mode string. -/
theorem active_cells_as_pairs (st : SelState) :
    ((gridCells st).filter (fun c => c.active)).map (fun c => (c.row, c.col))
      = gridPairs.filter (fun p => ((p.1 : Int) == st.m) && ((p.2 : Int) == st.n)) := by
  rw [gridCells_as_pairs, List.filter_map, List.map_map]
  have h1 : ((fun c : GridCell => (c.row, c.col)) ∘
      fun p : Nat × Nat => mkCell st.mode st.m st.n p.1 p.2)
      = fun p : Nat × Nat => (p.1, p.2) := rfl
  have h2 : ((fun c : GridCell => c.active) ∘
      fun p : Nat × Nat => mkCell st.mode st.m st.n p.1 p.2)
      = fun p : Nat × Nat => ((p.1 : Int) == st.m) && ((p.2 : Int) == st.n) := rfl
  rw [h1, h2]
  simp

/-! ## Claim theorems -/

/-- Claim C1 (code-bug evidence).  The claim says a query string whose mode
token is neither `HG` nor `LG` yields the default state and image path
`img/HG/0_0.png`.  The code instead accepts the unknown mode token, because
its guard tests the still-default `mode` variable rather than `modeTemp`:
`?XX_2_2` produces state `⟨XX, 2, 2⟩` and image path `img/XX/2_2.png`. -/
theorem invalid_mode_accepted :
    parseSelection "?XX_2_2" = { mode := "XX", m := 2, n := 2 } ∧
    imgPath (parseSelection "?XX_2_2") = "img/XX/2_2.png" ∧
    parseSelection "?XX_2_2" ≠ defaultState := by decide

/-- Claim C3 (counterexample).  The claim says any query string with a
non-numeric index token falls back to the default state.  The index token
`3x` is not a decimal integer numeral, yet `?HG_3x_7` does not fall back:
`parseInt` reads the numeric head `3` of the token. -/
theorem non_numeric_token_counterexample :
    (queryTokens "?HG_3x_7").get? 1 = some "3x" ∧
    specDecimalIntToken "3x" = false ∧
    parseSelection "?HG_3x_7" ≠ defaultState ∧
    parseSelection "?HG_3x_7" = { mode := "HG", m := 3, n := 7 } := by decide

/-- Claim C4 (code-bug evidence).  The claim says the single synchronous
pass completes for every query string.  On `?XX_2_2` the mode-validation
slip lets `mode` become `XX`, so line 38's
`document.getElementById('XX-select')` is `null` and assigning its `id`
throws: the pass aborts with a `TypeError`. -/
theorem run_throws_on_unknown_mode :
    resultError (runScript "?XX_2_2") = some "TypeError: cannot set id of null" ∧
    resultImagePath (runScript "?XX_2_2") = none := by decide

set_option maxRecDepth 8000 in
/-- Claim C8 (counterexample).  Grid generation appends to the table
(`innerHTML +=`), so running the step twice leaves 200 cells with two
active ones — not the same single active cell as one run. -/
theorem grid_regen_counterexample :
    ((runGridGeneration defaultState (runGridGeneration defaultState [])).filter
        (fun c => c.active)).length = 2 ∧
    ((runGridGeneration defaultState []).filter (fun c => c.active)).length = 1 ∧
    (runGridGeneration defaultState (runGridGeneration defaultState [])).length = 200 ∧
    (runGridGeneration defaultState []).length = 100 := by decide

/-- Claim C8 (amended).  For a fixed selection state each generation pass
emits an identical cell sequence, but the pass appends rather than
replaces: after two passes the table holds two copies of that sequence, so
the set of link targets is unchanged while every active cell (and every
label, in the same relative order) simply appears twice. -/
theorem grid_regen_appends_copy (st : SelState) :
    runGridGeneration st (runGridGeneration st []) = gridCells st ++ gridCells st ∧
    (∀ h : String,
      h ∈ (runGridGeneration st (runGridGeneration st [])).map (fun c => c.href) ↔
      h ∈ (runGridGeneration st []).map (fun c => c.href)) ∧
    (runGridGeneration st (runGridGeneration st [])).filter (fun c => c.active)
      = (runGridGeneration st []).filter (fun c => c.active)
        ++ (runGridGeneration st []).filter (fun c => c.active) := by
  refine ⟨by simp [runGridGeneration], ?_, by simp [runGridGeneration]⟩
  intro h
  simp [runGridGeneration]

/-- Claim C9.  Each grid row's emitted background color is
`hsl(rowIndex * 50, 100%, 80%)`; under CSS hue semantics (angles mod 360)
its hue is `(rowIndex * 50) mod 360`, with full saturation and 80%
lightness. -/
theorem row_color_formula (st : SelState) (r : Nat) (hr : r < 10) :
    ∃ row : GridRow, (gridRows st)[r]? = some row ∧
      cssHueOfArg row.hueArg = (r * 50) % 360 ∧
      row.satPercent = 100 ∧ row.lightPercent = 80 := by
  refine ⟨gridRow st r, ?_, rfl, rfl, rfl⟩
  simp only [gridRows, List.getElem?_map, List.getElem?_range hr]
  rfl

/-- Witness for claim C9 at the last row of the default state's grid. -/
theorem row_color_formula_witness :
    9 < 10 ∧ ∃ row : GridRow, (gridRows defaultState)[9]? = some row ∧
      cssHueOfArg row.hueArg = (9 * 50) % 360 ∧
      row.satPercent = 100 ∧ row.lightPercent = 80 :=
  ⟨by decide, row_color_formula defaultState 9 (by decide)⟩

/-- Claim C7.  For a valid mode token, line 38 re-ids exactly one of the
two mode indicators to `selected-mode` — the one matching the current
mode — and leaves the other with its original id. -/
theorem mode_indicator_exactly_one (mode : String)
    (hmode : mode = "HG" ∨ mode = "LG") :
    ∃ ind : ModeIndicators,
      markSelectedMode mode initialIndicators = Except.ok ind ∧
      ((if ind.hgId = "selected-mode" then 1 else 0)
        + (if ind.lgId = "selected-mode" then 1 else 0) = 1) ∧
      (mode = "HG" → ind.hgId = "selected-mode" ∧ ind.lgId = "LG-select") ∧
      (mode = "LG" → ind.lgId = "selected-mode" ∧ ind.hgId = "HG-select") := by
  rcases hmode with h | h <;> subst h
  · exact ⟨{ hgId := "selected-mode", lgId := "LG-select" }, rfl, by decide, by decide, by decide⟩
  · exact ⟨{ hgId := "HG-select", lgId := "selected-mode" }, rfl, by decide, by decide, by decide⟩

/-- Witness for claim C7 at mode `HG`. -/
theorem mode_indicator_exactly_one_witness :
    ("HG" = "HG" ∨ "HG" = "LG") ∧
    ∃ ind : ModeIndicators,
      markSelectedMode "HG" initialIndicators = Except.ok ind ∧
      ((if ind.hgId = "selected-mode" then 1 else 0)
        + (if ind.lgId = "selected-mode" then 1 else 0) = 1) ∧
      ("HG" = "HG" → ind.hgId = "selected-mode" ∧ ind.lgId = "LG-select") ∧
      ("HG" = "LG" → ind.lgId = "selected-mode" ∧ ind.hgId = "HG-select") :=
  ⟨Or.inl rfl, mode_indicator_exactly_one "HG" (Or.inl rfl)⟩

/-- Claim C2.  For every query string `?HG_i_j` or `?LG_i_j` with decimal
index tokens in `[0, 10)`, the pass completes and the image path it sets is
exactly `img/<MODE>/<i>_<j>.png`. -/
theorem valid_query_image_path (mode : String) (i j : Nat)
    (hmode : mode = "HG" ∨ mode = "LG") (hi : i < 10) (hj : j < 10) :
    resultImagePath (runScript ("?" ++ mode ++ "_" ++ Nat.repr i ++ "_" ++ Nat.repr j))
      = some ("img/" ++ mode ++ "/" ++ Nat.repr i ++ "_" ++ Nat.repr j ++ ".png") := by
  rcases hmode with h | h <;> subst h <;>
    interval_cases i <;> interval_cases j <;> decide

/-- Witness for claim C2 at the spec's example `?LG_3_7`. -/
theorem valid_query_image_path_witness :
    ("LG" = "HG" ∨ "LG" = "LG") ∧ 3 < 10 ∧ 7 < 10 ∧
    resultImagePath (runScript "?LG_3_7") = some "img/LG/3_7.png" :=
  ⟨Or.inr rfl, by decide, by decide,
    valid_query_image_path "LG" 3 7 (Or.inr rfl) (by decide) (by decide)⟩

/-- Claim C3 (amended).  For every query string in which either index token
yields `NaN` under `parseInt` or parses to an integer outside `[0, 10)`,
the resulting selection state is the default (`HG`, both indices `0`). -/
theorem invalid_index_fallback (urlInfo : String)
    (h : indexToken urlInfo 1 = none ∨
         (∃ v, indexToken urlInfo 1 = some v ∧ (v < 0 ∨ 10 ≤ v)) ∨
         indexToken urlInfo 2 = none ∨
         (∃ v, indexToken urlInfo 2 = some v ∧ (v < 0 ∨ 10 ≤ v))) :
    parseSelection urlInfo = defaultState := by
  have hfalse : inRange10 (indexToken urlInfo 1) = false ∨
      inRange10 (indexToken urlInfo 2) = false := by
    rcases h with h | h | h | h
    · exact Or.inl (inRange10_eq_false (Or.inl h))
    · exact Or.inl (inRange10_eq_false (Or.inr h))
    · exact Or.inr (inRange10_eq_false (Or.inl h))
    · exact Or.inr (inRange10_eq_false (Or.inr h))
  unfold parseSelection
  split
  · split
    · next hcond => rcases hfalse with hf | hf <;> simp [hf] at hcond
    · rfl
  · rfl

/-- Witness for claim C3 (amended) at `?LG_15_2`: the first index token
parses to `15`, which is out of range, so everything falls back. -/
theorem invalid_index_fallback_witness :
    (indexToken "?LG_15_2" 1 = none ∨
     (∃ v, indexToken "?LG_15_2" 1 = some v ∧ (v < 0 ∨ 10 ≤ v)) ∨
     indexToken "?LG_15_2" 2 = none ∨
     (∃ v, indexToken "?LG_15_2" 2 = some v ∧ (v < 0 ∨ 10 ≤ v))) ∧
    parseSelection "?LG_15_2" = defaultState :=
  ⟨Or.inr (Or.inl ⟨15, by decide, Or.inr (by decide)⟩),
   invalid_index_fallback "?LG_15_2" (Or.inr (Or.inl ⟨15, by decide, Or.inr (by decide)⟩))⟩

/-- Claim C5.  For every valid selection state, exactly one generated grid
cell is flagged active, namely the one whose row and column counters equal
the current selection's indices. -/
theorem grid_unique_active (st : SelState)
    (hmode : st.mode = "HG" ∨ st.mode = "LG")
    (hm0 : 0 ≤ st.m) (hm1 : st.m < 10) (hn0 : 0 ≤ st.n) (hn1 : st.n < 10) :
    ((gridCells st).filter (fun c => c.active)).map (fun c => (c.row, c.col))
      = [(st.m.toNat, st.n.toNat)] := by
  rw [active_cells_as_pairs]
  obtain ⟨mo, m, n⟩ := st
  dsimp only at hm0 hm1 hn0 hn1 ⊢
  interval_cases m <;> interval_cases n <;> decide

/-- Witness for claim C5 at the spec's example state `LG`, indices 3, 7. -/
theorem grid_unique_active_witness :
    ((⟨"LG", 3, 7⟩ : SelState).mode = "HG" ∨ (⟨"LG", 3, 7⟩ : SelState).mode = "LG") ∧
    (0 : Int) ≤ 3 ∧ (3 : Int) < 10 ∧ (0 : Int) ≤ 7 ∧ (7 : Int) < 10 ∧
    ((gridCells ⟨"LG", 3, 7⟩).filter (fun c => c.active)).map (fun c => (c.row, c.col))
      = [((3 : Int).toNat, (7 : Int).toNat)] :=
  ⟨Or.inr rfl, by decide, by decide, by decide, by decide,
   grid_unique_active ⟨"LG", 3, 7⟩ (Or.inr rfl) (by decide) (by decide) (by decide) (by decide)⟩

/-- Claim C6.  For every selection state reached by parsing a query string,
the two mode-switch link targets encode exactly the current indices and
differ from the current state only in the mode token: re-parsing the `HG`
link (with its `./` stripped) yields state `⟨HG, m, n⟩` and re-parsing the
`LG` link yields `⟨LG, m, n⟩`. -/
theorem mode_links_preserve_indices (urlInfo : String) :
    parseSelection (strDrop 2 (hgHref (parseSelection urlInfo)))
      = { mode := "HG", m := (parseSelection urlInfo).m, n := (parseSelection urlInfo).n } ∧
    parseSelection (strDrop 2 (lgHref (parseSelection urlInfo)))
      = { mode := "LG", m := (parseSelection urlInfo).m, n := (parseSelection urlInfo).n } := by
  obtain ⟨h0, h1, h2, h3⟩ := parse_in_range urlInfo
  exact mode_links_roundtrip (parseSelection urlInfo) h0 h1 h2 h3

/-- Claim C10.  For every selection state the grid is 10 rows of 10 cells;
the cells' counter pairs are exactly the row-major enumeration of
`[0,10) × [0,10)` (no pair repeated), every link target is
`./?<mode>_<row>_<col>` for the current mode, and every label is the row
digit followed by the column digit. -/
theorem grid_structure_contents (st : SelState) :
    (gridRows st).length = 10 ∧
    (∀ row ∈ gridRows st, row.cells.length = 10) ∧
    (gridCells st).map (fun c => (c.row, c.col)) = gridPairs ∧
    gridPairs.Nodup ∧
    (∀ r c : Nat, r < 10 → c < 10 → (r, c) ∈ gridPairs) ∧
    (gridCells st).map (fun c => c.href)
      = gridPairs.map (fun p => cellHref st.mode p.1 p.2) ∧
    (∀ cl ∈ gridCells st, cl.label = Nat.repr cl.row ++ Nat.repr cl.col ∧
        (Nat.repr cl.row).length = 1 ∧ (Nat.repr cl.col).length = 1) := by
  refine ⟨rfl, ?_, rfl, by decide, ?_, rfl, ?_⟩
  · intro row hrow
    simp only [gridRows, List.mem_map] at hrow
    obtain ⟨r, -, rfl⟩ := hrow
    rfl
  · intro r c hr hc
    simp only [gridPairs, List.mem_flatten]
    refine ⟨(List.range 10).map (fun c2 => (r, c2)), ?_, ?_⟩
    · exact List.mem_map_of_mem _ (List.mem_range.mpr hr)
    · exact List.mem_map_of_mem _ (List.mem_range.mpr hc)
  · intro cl hcl
    rw [gridCells_as_pairs] at hcl
    simp only [List.mem_map] at hcl
    obtain ⟨p, hp, rfl⟩ := hcl
    exact ⟨rfl, (gridPairs_repr_len p hp).1, (gridPairs_repr_len p hp).2⟩

end ModalLaser
